import Mathlib

/-!
Verification development for the coverage-mapping pipeline
(`src/viewshed.py`, `src/merge.py`): node ingestion and validation,
height resolution (terrain floor + Fresnel margin), viewshed
orchestration, and coverage aggregation.

Numeric coordinate columns are modelled as `Option ℚ` values, the result
of pandas `to_numeric(errors="coerce")` (`none` = NaN / unparseable).
Antenna heights and radio quantities are modelled over `ℝ`.
-/

namespace MapaPokryti

/-! ## Node ingestion & validation (`viewshed.py`, `_load_nodes`, lines 107-161) -/

/-- One raw input row. `id` is the column after `astype(str)` (a pandas
string column is never NaN: missing ids become the literal string "nan"),
`lat`/`lon` are the `to_numeric(errors="coerce")` results. -/
structure RawRow where
  id : String
  lat : Option ℚ
  lon : Option ℚ
  height : Option ℚ
deriving DecidableEq, Repr

/-- The three validation toggles of `cfg["input"]["validation"]`. -/
structure ValCfg where
  dropInvalidCoords : Bool
  dropZeroCoords : Bool
  dedupeById : Bool
deriving DecidableEq, Repr

/-- All toggles default to `True` in the source. -/
def defaultValCfg : ValCfg := ⟨true, true, true⟩

/-- Python's `str.strip()`: remove leading and trailing whitespace. -/
def stripStr (s : String) : String :=
  ⟨((s.data.dropWhile Char.isWhitespace).reverse.dropWhile Char.isWhitespace).reverse⟩

/-- Line 119: `df["id"] = df["id"].astype(str).str.strip()`. -/
def coerceRow (r : RawRow) : RawRow := { r with id := stripStr r.id }

/-- Line 122: a row where id/lat/lon `isna` (id is a string column by now,
so only lat/lon can be NaN). -/
def nanMask (r : RawRow) : Bool := r.lat.isNone || r.lon.isNone

/-- Line 125: empty identifier after trimming. -/
def emptyIdMask (r : RawRow) : Bool := r.id == ""

/-- Line 128: coordinates outside the valid lat/lon ranges. -/
def invalidCoordMask (r : RawRow) : Bool :=
  match r.lat, r.lon with
  | some la, some lo =>
      decide (la < -90) || decide (la > 90) || decide (lo < -180) || decide (lo > 180)
  | _, _ => false

/-- Line 133: the `(0, 0)` sentinel position. -/
def zeroCoordMask (r : RawRow) : Bool :=
  match r.lat, r.lon with
  | some la, some lo => decide (la = 0) && decide (lo = 0)
  | _, _ => false

/-- Line 140: `drop_duplicates(subset=["id"], keep="first")`, as a scan that
keeps the first row carrying each identifier. -/
def dedupeFirstAux (seen : List String) : List RawRow → List RawRow
  | [] => []
  | r :: rs =>
      if r.id ∈ seen then dedupeFirstAux seen rs
      else r :: dedupeFirstAux (r.id :: seen) rs

/-- The dataframe after the id-trim / numeric-coercion step (lines 119-121). -/
def trimmedRows (rows : List RawRow) : List RawRow := rows.map coerceRow

/-- After `dropna` on id/lat/lon (line 123). -/
def nonNanRows (rows : List RawRow) : List RawRow :=
  (trimmedRows rows).filter (fun r => !nanMask r)

/-- After dropping empty identifiers (line 126). -/
def nonEmptyIdRows (rows : List RawRow) : List RawRow :=
  (nonNanRows rows).filter (fun r => !emptyIdMask r)

/-- After the invalid-range stage (lines 128-131); the drop is gated by the
`drop_invalid_coords` toggle, the count is taken regardless. -/
def rangeCheckedRows (cfg : ValCfg) (rows : List RawRow) : List RawRow :=
  if cfg.dropInvalidCoords then (nonEmptyIdRows rows).filter (fun r => !invalidCoordMask r)
  else nonEmptyIdRows rows

/-- After the zero-coordinate stage (lines 133-136). -/
def zeroCheckedRows (cfg : ValCfg) (rows : List RawRow) : List RawRow :=
  if cfg.dropZeroCoords then (rangeCheckedRows cfg rows).filter (fun r => !zeroCoordMask r)
  else rangeCheckedRows cfg rows

/-- The validated rows after optional deduplication (lines 138-141). -/
def validatedRows (cfg : ValCfg) (rows : List RawRow) : List RawRow :=
  if cfg.dedupeById then dedupeFirstAux [] (zeroCheckedRows cfg rows)
  else zeroCheckedRows cfg rows

/-- The per-reason counters written into `stats` (lines 143-149). -/
structure NodeStats where
  rowsInput : ℕ
  rowsDroppedNan : ℕ
  rowsDroppedEmptyId : ℕ
  rowsDroppedInvalidRange : ℕ
  rowsDroppedZeroCoords : ℕ
  rowsDroppedDuplicateId : ℕ
  rowsValid : ℕ
deriving DecidableEq, Repr

/-- The ingestion statistics exactly as accumulated in lines 117-149: each
count is taken on the dataframe state current at that line. -/
def loadNodesStats (cfg : ValCfg) (rows : List RawRow) : NodeStats :=
  { rowsInput := rows.length
    rowsDroppedNan := (trimmedRows rows).countP nanMask
    rowsDroppedEmptyId := (nonNanRows rows).countP emptyIdMask
    rowsDroppedInvalidRange := (nonEmptyIdRows rows).countP invalidCoordMask
    rowsDroppedZeroCoords := (rangeCheckedRows cfg rows).countP zeroCoordMask
    rowsDroppedDuplicateId :=
      (zeroCheckedRows cfg rows).length - (validatedRows cfg rows).length
    rowsValid := (validatedRows cfg rows).length }

/-- Line 157: the identifiers of the surviving rows. -/
def keepIds (cfg : ValCfg) (rows : List RawRow) : List String :=
  (validatedRows cfg rows).map RawRow.id

/-- Lines 151-161: the rejected-records output re-loads the raw table,
re-applies the id/lat/lon coercions, and keeps exactly the rows whose
identifier is not among the validated identifiers. -/
def rejectedOutput (cfg : ValCfg) (rows : List RawRow) : List RawRow :=
  (rows.map coerceRow).filter (fun r => !(keepIds cfg rows).contains r.id)

/-! ### Helper lemmas on the validation stages -/

theorem length_filter_not_add_countP {α : Type} (p : α → Bool) (l : List α) :
    (l.filter (fun a => !p a)).length + l.countP p = l.length := by
  induction l with
  | nil => rfl
  | cons a t ih =>
    cases h : p a <;>
      simp [List.filter_cons, h, List.countP_cons, ih] <;> omega

theorem dedupeFirstAux_sublist (seen : List String) (l : List RawRow) :
    (dedupeFirstAux seen l).Sublist l := by
  induction l generalizing seen with
  | nil => simp [dedupeFirstAux]
  | cons x t ih =>
    rw [dedupeFirstAux]
    split
    · exact (ih seen).trans (List.sublist_cons_self x t)
    · exact (ih _).cons₂ x

theorem validatedRows_length_le (cfg : ValCfg) (rows : List RawRow) :
    (validatedRows cfg rows).length ≤ (zeroCheckedRows cfg rows).length := by
  rw [validatedRows]
  split
  · exact (dedupeFirstAux_sublist [] _).length_le
  · exact le_rfl

theorem dedupeFirstAux_mem_find (l : List RawRow) :
    ∀ (seen : List String) (r : RawRow), r ∈ dedupeFirstAux seen l →
      r.id ∉ seen ∧ l.find? (fun x => x.id == r.id) = some r := by
  induction l with
  | nil => intro seen r h; simp [dedupeFirstAux] at h
  | cons x t ih =>
    intro seen r h
    rw [dedupeFirstAux] at h
    by_cases hx : x.id ∈ seen
    · rw [if_pos hx] at h
      obtain ⟨hns, hfind⟩ := ih seen r h
      have hne : (x.id == r.id) = false :=
        beq_eq_false_iff_ne.mpr (fun he => hns (he ▸ hx))
      exact ⟨hns, by simp [List.find?_cons, hne, hfind]⟩
    · rw [if_neg hx] at h
      rcases List.mem_cons.mp h with hrx | hmem
      · subst hrx
        exact ⟨hx, by simp [List.find?_cons]⟩
      · obtain ⟨hns, hfind⟩ := ih (x.id :: seen) r hmem
        have hne : (x.id == r.id) = false :=
          beq_eq_false_iff_ne.mpr (fun he => hns (he ▸ List.mem_cons_self _ _))
        refine ⟨fun hc => hns (List.mem_cons_of_mem _ hc), ?_⟩
        simp [List.find?_cons, hne, hfind]

theorem zeroCheckedRows_sublist (cfg : ValCfg) (rows : List RawRow) :
    (zeroCheckedRows cfg rows).Sublist (trimmedRows rows) := by
  have h1 : (nonNanRows rows).Sublist (trimmedRows rows) := List.filter_sublist _
  have h2 : (nonEmptyIdRows rows).Sublist (nonNanRows rows) := List.filter_sublist _
  have h3 : (rangeCheckedRows cfg rows).Sublist (nonEmptyIdRows rows) := by
    rw [rangeCheckedRows]; split
    · exact List.filter_sublist _
    · exact List.Sublist.refl _
  have h4 : (zeroCheckedRows cfg rows).Sublist (rangeCheckedRows cfg rows) := by
    rw [zeroCheckedRows]; split
    · exact List.filter_sublist _
    · exact List.Sublist.refl _
  exact ((h4.trans h3).trans h2).trans h1

/-! ### Concrete inputs for the ingestion claims -/

/-- A table with a duplicated identifier: the second occurrence is dropped
by the dedup stage but its id remains among the kept ids. -/
def rowsC2 : List RawRow :=
  [⟨"A", some 50, some 14, some 10⟩, ⟨"A", some 50, some 14, some 10⟩]

/-- A witness table with a single invalid-range row. -/
def rowsW2 : List RawRow := [⟨" A ", some 200, some 0, none⟩]

/-- An out-of-range row, with the invalid-range drop toggle disabled. -/
def rowsC3 : List RawRow := [⟨"A", some 100, some 14, none⟩]

/-- The validation configuration that keeps out-of-range rows. -/
def cfgC3 : ValCfg := ⟨false, true, true⟩

/-- The spec scenario table: a valid row A, a zero-coordinate row B, and a
duplicate of A. -/
def rowA : RawRow := ⟨"A", some 50, some 14, some 10⟩

def rowsC6 : List RawRow :=
  [rowA, ⟨"B", some 0, some 0, some 5⟩, rowA]

/-! ### Claims C2, C3, C6 -/

/-- Claim C2 counterexample: in the table with a duplicated identifier the
second occurrence is dropped by the dedup stage
(rowsDroppedDuplicateId = 1, only one validated row out of two input rows),
yet the rejected-records output is empty, so that dropped row does not
appear in it. -/
theorem claim_c2_counterexample :
    (loadNodesStats defaultValCfg rowsC2).rowsDroppedDuplicateId = 1 ∧
    (validatedRows defaultValCfg rowsC2).length = 1 ∧
    rowsC2.length = 2 ∧
    rejectedOutput defaultValCfg rowsC2 = [] := by decide

/-- Claim C2 (amended): every input row either appears (in coerced form:
trimmed id, numeric coordinates) in the rejected-records output, or its
trimmed identifier coincides with the identifier of some validated node;
rows dropped as duplicates of a kept identifier are the ones that fall in
the second case and are absent from the rejected output. -/
theorem claim_c2_rejected_or_kept (cfg : ValCfg) (rows : List RawRow) (r : RawRow)
    (hr : r ∈ rows) :
    coerceRow r ∈ rejectedOutput cfg rows ∨ (coerceRow r).id ∈ keepIds cfg rows := by
  by_cases h : (keepIds cfg rows).contains (coerceRow r).id = true
  · right
    simpa using h
  · left
    have hf : (keepIds cfg rows).contains (coerceRow r).id = false := by
      simpa using h
    refine List.mem_filter.mpr ⟨List.mem_map_of_mem _ hr, ?_⟩
    simp only [hf, Bool.not_false]

/-- Claim C2 witness: the single out-of-range row of `rowsW2` is dropped and
indeed lands in the rejected output (left disjunct). -/
theorem claim_c2_witness :
    (⟨" A ", some 200, some 0, none⟩ : RawRow) ∈ rowsW2 ∧
    (coerceRow ⟨" A ", some 200, some 0, none⟩ ∈ rejectedOutput defaultValCfg rowsW2 ∨
      (coerceRow ⟨" A ", some 200, some 0, none⟩).id ∈ keepIds defaultValCfg rowsW2) :=
  ⟨by decide, claim_c2_rejected_or_kept defaultValCfg rowsW2 _ (by decide)⟩

/-- Claim C3 counterexample: with `drop_invalid_coords = False`, an
out-of-range row is counted in rowsDroppedInvalidRange but also kept and
counted in rowsValid, so the per-reason counts plus the validated count
exceed the input row count. -/
theorem claim_c3_counterexample :
    (loadNodesStats cfgC3 rowsC3).rowsValid +
      ((loadNodesStats cfgC3 rowsC3).rowsDroppedNan +
        (loadNodesStats cfgC3 rowsC3).rowsDroppedEmptyId +
        (loadNodesStats cfgC3 rowsC3).rowsDroppedInvalidRange +
        (loadNodesStats cfgC3 rowsC3).rowsDroppedZeroCoords +
        (loadNodesStats cfgC3 rowsC3).rowsDroppedDuplicateId) = 2 ∧
    rowsC3.length = 1 ∧
    ¬ ((loadNodesStats cfgC3 rowsC3).rowsValid +
        ((loadNodesStats cfgC3 rowsC3).rowsDroppedNan +
          (loadNodesStats cfgC3 rowsC3).rowsDroppedEmptyId +
          (loadNodesStats cfgC3 rowsC3).rowsDroppedInvalidRange +
          (loadNodesStats cfgC3 rowsC3).rowsDroppedZeroCoords +
          (loadNodesStats cfgC3 rowsC3).rowsDroppedDuplicateId) = rowsC3.length) := by
  decide

/-- Claim C3 (amended): when the two coordinate-drop toggles are enabled
(their default), the validated-row count plus the per-reason dropped counts
equals the raw input row count; when a drop toggle is disabled the
corresponding counter double-counts kept rows. -/
theorem claim_c3_partition (cfg : ValCfg) (rows : List RawRow)
    (h1 : cfg.dropInvalidCoords = true) (h2 : cfg.dropZeroCoords = true) :
    (loadNodesStats cfg rows).rowsValid +
      ((loadNodesStats cfg rows).rowsDroppedNan +
        (loadNodesStats cfg rows).rowsDroppedEmptyId +
        (loadNodesStats cfg rows).rowsDroppedInvalidRange +
        (loadNodesStats cfg rows).rowsDroppedZeroCoords +
        (loadNodesStats cfg rows).rowsDroppedDuplicateId) = rows.length := by
  have e1 := length_filter_not_add_countP nanMask (trimmedRows rows)
  have e2 := length_filter_not_add_countP emptyIdMask (nonNanRows rows)
  have e3 := length_filter_not_add_countP invalidCoordMask (nonEmptyIdRows rows)
  have e4 := length_filter_not_add_countP zeroCoordMask (rangeCheckedRows cfg rows)
  have hr : rangeCheckedRows cfg rows =
      (nonEmptyIdRows rows).filter (fun r => !invalidCoordMask r) := by
    rw [rangeCheckedRows, if_pos h1]
  have hz : zeroCheckedRows cfg rows =
      (rangeCheckedRows cfg rows).filter (fun r => !zeroCoordMask r) := by
    rw [zeroCheckedRows, if_pos h2]
  have hlen : (trimmedRows rows).length = rows.length := List.length_map _ _
  have hdd := validatedRows_length_le cfg rows
  rw [← hr] at e3
  rw [← hz] at e4
  simp only [loadNodesStats, nonNanRows, nonEmptyIdRows] at *
  omega

/-- Claim C3 witness: the partition identity instantiated on the scenario
table under the default toggles: 1 validated + (0+0+0+1+1) dropped = 3. -/
theorem claim_c3_witness :
    defaultValCfg.dropInvalidCoords = true ∧ defaultValCfg.dropZeroCoords = true ∧
    (loadNodesStats defaultValCfg rowsC2).rowsValid +
      ((loadNodesStats defaultValCfg rowsC2).rowsDroppedNan +
        (loadNodesStats defaultValCfg rowsC2).rowsDroppedEmptyId +
        (loadNodesStats defaultValCfg rowsC2).rowsDroppedInvalidRange +
        (loadNodesStats defaultValCfg rowsC2).rowsDroppedZeroCoords +
        (loadNodesStats defaultValCfg rowsC2).rowsDroppedDuplicateId) = rowsC2.length :=
  ⟨rfl, rfl, claim_c3_partition defaultValCfg rowsC2 rfl rfl⟩

/-- Claim C6: validated rows keep the relative input order (they form a
sublist of the trimmed input), deduplication keeps the first occurrence of
each identifier of the pre-dedup list, and the spec scenario
[A, B(0,0), A-duplicate] validates to exactly [A] with one zero-coordinate
drop and one duplicate drop. -/
theorem claim_c6_order_scenario (cfg : ValCfg) (rows : List RawRow) :
    (validatedRows cfg rows).Sublist (trimmedRows rows) ∧
    (cfg.dedupeById = true → ∀ r ∈ validatedRows cfg rows,
        (zeroCheckedRows cfg rows).find? (fun x => x.id == r.id) = some r) ∧
    (validatedRows defaultValCfg rowsC6 = [rowA] ∧
      (loadNodesStats defaultValCfg rowsC6).rowsDroppedZeroCoords = 1 ∧
      (loadNodesStats defaultValCfg rowsC6).rowsDroppedDuplicateId = 1) := by
  refine ⟨?_, ?_, by decide⟩
  · have hz := zeroCheckedRows_sublist cfg rows
    rw [validatedRows]
    split
    · exact (dedupeFirstAux_sublist [] _).trans hz
    · exact hz
  · intro hd r hmem
    rw [validatedRows, if_pos hd] at hmem
    exact (dedupeFirstAux_mem_find _ [] r hmem).2

/-- Claim C6 witness: instantiating the first-occurrence property on the
scenario table at the validated row A. -/
theorem claim_c6_witness :
    defaultValCfg.dedupeById = true ∧ rowA ∈ validatedRows defaultValCfg rowsC6 ∧
    (zeroCheckedRows defaultValCfg rowsC6).find? (fun x => x.id == rowA.id) = some rowA :=
  ⟨rfl, by decide,
    (claim_c6_order_scenario defaultValCfg rowsC6).2.1 rfl rowA (by decide)⟩

/-! ## Height Resolution Engine (`viewshed.py`, lines 29-40, 78-104, 163-239) -/

/-- Lines 29-40, `_fresnel_radius_m`: first Fresnel zone radius
`r[m] = 17.32 * sqrt((d1_km * d2_km) / (f_GHz * D_km))`, returning 0 on the
two guards for degenerate inputs. -/
noncomputable def fresnelRadiusM (distanceM frequencyMhz splitRatio : ℝ) : ℝ :=
  if distanceM ≤ 0 ∨ frequencyMhz ≤ 0 then 0
  else
    let d1Km := distanceM * splitRatio / 1000
    let d2Km := distanceM * (1 - splitRatio) / 1000
    let dKm := distanceM / 1000
    let fGhz := frequencyMhz / 1000
    if d1Km ≤ 0 ∨ d2Km ≤ 0 ∨ dKm ≤ 0 ∨ fGhz ≤ 0 then 0
    else 17.32 * Real.sqrt ((d1Km * d2Km) / (fGhz * dKm))

/-- The terrain raster as consumed by the engine: dimensions, the two
diagonal affine-transform entries (cell sizes), the elevation band, and the
two external geospatial primitives (`rasterio.transform.rowcol` restricted
to this raster's transform, and `rasterio.warp.transform` from EPSG:4326
into this raster's CRS), kept abstract as functions of the coordinates. -/
structure Dem where
  heightPx : ℕ
  widthPx : ℕ
  transformA : ℝ
  transformE : ℝ
  elev : ℤ → ℤ → ℝ
  rowcolAt : ℝ × ℝ → ℤ × ℤ
  projXY : ℝ × ℝ → ℝ × ℝ

/-- Line 89: `pixel_size_m = max(min(pixel_x, pixel_y), 1e-6)` with
`pixel_x = |transform.a|`, `pixel_y = |transform.e|`. -/
noncomputable def pixelSizeM (dem : Dem) : ℝ :=
  max (min |dem.transformA| |dem.transformE|) (1 / 1000000)

/-- Line 90: `px_radius = max(int(np.ceil(local_radius_m / pixel_size_m)), 1)`. -/
noncomputable def pxRadiusOf (dem : Dem) (localRadiusM : ℝ) : ℤ :=
  max ⌈localRadiusM / pixelSizeM dem⌉ 1

/-- Lines 92-95: the window `[r0, r1) × [c0, c1)` of raster cells read around
`(row, col)`, clamped to the raster bounds, as a finite set of cell indices.
The source's emptiness guards `r0 >= r1 or c0 >= c1` and `arr.size == 0`
hold exactly when this set is empty. -/
def localWindow (dem : Dem) (row col px : ℤ) : Finset (ℤ × ℤ) :=
  Finset.Icc (max (row - px) 0) (min (row + px + 1) (dem.heightPx : ℤ) - 1) ×ˢ
    Finset.Icc (max (col - px) 0) (min (col + px + 1) (dem.widthPx : ℤ) - 1)

/-- Lines 78-104, `_estimate_min_height_from_local_terrain`: the antenna
floor `max(0, local_max - ground_elev + clearance_margin)`, where
`local_max` is the maximum elevation over the local window, and 0 when the
window is empty. -/
noncomputable def estimateMinHeightFromLocalTerrain (dem : Dem) (ox oy groundElevM
    localRadiusM clearanceMarginM : ℝ) : ℝ :=
  let rc := dem.rowcolAt (ox, oy)
  let w := localWindow dem rc.1 rc.2 (pxRadiusOf dem localRadiusM)
  if h : w.Nonempty then
    max 0 (w.sup' h (fun p => dem.elev p.1 p.2) - groundElevM + clearanceMarginM)
  else 0

/-- The height-strategy, radio and viewshed configuration fields read in
lines 163-174. -/
structure HeightCfg where
  heightMode : String
  minHeightM : ℝ
  maxHeightM : ℝ
  localRadiusM : ℝ
  clearanceMarginM : ℝ
  useFresnel : Bool
  fresnelClearanceRatio : ℝ
  fresnelSampleRatio : ℝ
  frequencyMhz : ℝ
  maxDistanceM : ℝ

/-- Lines 212-215: the Fresnel margin of the run,
`max(0, _fresnel_radius_m(max_distance, frequency, sample_ratio) * clearance_ratio)`
when Fresnel is enabled, 0 otherwise. It depends only on run-level
configuration. -/
noncomputable def fresnelMarginOf (hc : HeightCfg) : ℝ :=
  if hc.useFresnel then
    max 0 (fresnelRadiusM hc.maxDistanceM hc.frequencyMhz hc.fresnelSampleRatio *
      hc.fresnelClearanceRatio)
  else 0

/-- One validated node as it enters the per-node loop (line 192): identifier
and geographic position, plus the raw height `raw_h` already resolved from
the height column or the configured default (line 193). -/
structure InputNode where
  nodeId : String
  lat : ℝ
  lon : ℝ
  rawHeight : ℝ

/-- The per-node height-resolution outputs stored on the `Node` dataclass
and the audit columns (lines 224-239). -/
structure ResolvedObserver where
  inputHeightM : ℝ
  minRequiredHeightM : ℝ
  fresnelMarginM : ℝ
  usedHeightM : ℝ
  groundElevM : Option ℝ

/-- The in-bounds test of lines 200: `0 <= row < src.height and 0 <= col < src.width`. -/
def cellInBounds (dem : Dem) (rc : ℤ × ℤ) : Prop :=
  0 ≤ rc.1 ∧ rc.1 < (dem.heightPx : ℤ) ∧ 0 ≤ rc.2 ∧ rc.2 < (dem.widthPx : ℤ)

instance (dem : Dem) (rc : ℤ × ℤ) : Decidable (cellInBounds dem rc) := by
  unfold cellInBounds; infer_instance

/-- Lines 192-239, the body of the per-node loop: project the position into
the raster CRS, locate the cell, read the ground elevation and the adaptive
terrain floor when in bounds, compute the Fresnel margin, and combine into
the used height
`min(max(max(raw, min_h), floor), max(floor + fresnel, ...)) ...` exactly as
in lines 217-219. -/
noncomputable def resolveNode (hc : HeightCfg) (dem : Dem) (nd : InputNode) :
    ResolvedObserver :=
  let oxy := dem.projXY (nd.lon, nd.lat)
  let rc := dem.rowcolAt oxy
  let ground? : Option ℝ :=
    if cellInBounds dem rc then some (dem.elev rc.1 rc.2) else none
  let minRequired : ℝ :=
    if cellInBounds dem rc ∧ hc.heightMode = "adaptive_min" then
      estimateMinHeightFromLocalTerrain dem oxy.1 oxy.2 (dem.elev rc.1 rc.2)
        hc.localRadiusM hc.clearanceMarginM
    else 0
  let fresnelMargin := fresnelMarginOf hc
  let used1 := max (max nd.rawHeight hc.minHeightM) minRequired
  let used2 := max used1 (minRequired + fresnelMargin)
  let usedH := min used2 hc.maxHeightM
  ⟨nd.rawHeight, minRequired, fresnelMargin, usedH, ground?⟩

/-- The clamp function of the specification: `clamp(x, lo, hi) = min(max(x, lo), hi)`. -/
noncomputable def clampSpec (x lo hi : ℝ) : ℝ := min (max x lo) hi

/-! ### Concrete inputs for the height claims -/

/-- A 1x1 terrain raster, identity projection, node cell (0,0), flat 0 m. -/
noncomputable def demTiny : Dem :=
  { heightPx := 1, widthPx := 1, transformA := 1, transformE := 1,
    elev := fun _ _ => 0, rowcolAt := fun _ => (0, 0), projXY := fun p => p }

/-- A degenerate raster with no cells: every node is out of bounds. -/
noncomputable def demEmpty : Dem :=
  { heightPx := 0, widthPx := 0, transformA := 1, transformE := 1,
    elev := fun _ _ => 0, rowcolAt := fun _ => (0, 0), projXY := fun p => p }

/-- A height configuration with Fresnel disabled. -/
noncomputable def hcW1 : HeightCfg :=
  ⟨"adaptive_min", 4, 120, 300, 2, false, 0.6, 0.5, 868, 20000⟩

/-- A concrete observer node. -/
noncomputable def ndW1 : InputNode := ⟨"W", 50, 14, 6⟩

/-! ### Claims C1 and C10 -/

/-- Claim C1: the final antenna height equals
`clamp(max(input_height, min_height_global, terrain_floor, terrain_floor + fresnel_floor),
min_height_global, max_height_global)`, where the terrain floor is the
node's `min_required_height_m`; the Fresnel floor is added on top of the
terrain floor (never on top of the raw input height) and is 0 when Fresnel
is disabled. -/
theorem claim_c1_final_height (hc : HeightCfg) (dem : Dem) (nd : InputNode) :
    ((resolveNode hc dem nd).usedHeightM =
      clampSpec
        (max (max (max (resolveNode hc dem nd).inputHeightM hc.minHeightM)
            (resolveNode hc dem nd).minRequiredHeightM)
          ((resolveNode hc dem nd).minRequiredHeightM +
            (resolveNode hc dem nd).fresnelMarginM))
        hc.minHeightM hc.maxHeightM) ∧
    (hc.useFresnel = false → (resolveNode hc dem nd).fresnelMarginM = 0) := by
  constructor
  · simp only [resolveNode, clampSpec]
    rw [max_eq_left (le_max_of_le_left (le_max_of_le_left (le_max_right _ _)))]
  · intro h
    simp only [resolveNode, fresnelMarginOf, h, Bool.false_eq_true, if_false]

/-- Claim C1 witness: at a concrete node with Fresnel disabled, the margin
is 0 and the final height equals the spec clamp expression. -/
theorem claim_c1_witness :
    hcW1.useFresnel = false ∧
    (resolveNode hcW1 demTiny ndW1).fresnelMarginM = 0 ∧
    (resolveNode hcW1 demTiny ndW1).usedHeightM =
      clampSpec
        (max (max (max (resolveNode hcW1 demTiny ndW1).inputHeightM hcW1.minHeightM)
            (resolveNode hcW1 demTiny ndW1).minRequiredHeightM)
          ((resolveNode hcW1 demTiny ndW1).minRequiredHeightM +
            (resolveNode hcW1 demTiny ndW1).fresnelMarginM))
        hcW1.minHeightM hcW1.maxHeightM :=
  ⟨rfl, (claim_c1_final_height hcW1 demTiny ndW1).2 rfl,
    (claim_c1_final_height hcW1 demTiny ndW1).1⟩

/-- Claim C10: the Fresnel margin computed inside the per-node loop depends
only on the run-level configuration, so any two nodes of the same run get
the same margin. -/
theorem claim_c10_uniform_fresnel_margin (hc : HeightCfg) (dem : Dem)
    (n1 n2 : InputNode) :
    (resolveNode hc dem n1).fresnelMarginM = (resolveNode hc dem n2).fresnelMarginM := by
  simp only [resolveNode]

/-! ### Claim C5: Fresnel radius properties -/

theorem fresnelRadiusM_nonneg (d f s : ℝ) : 0 ≤ fresnelRadiusM d f s := by
  rw [fresnelRadiusM]
  split
  · exact le_rfl
  · dsimp only
    split
    · exact le_rfl
    · positivity

/-- On positive inputs with an interior split ratio, the radius is the
closed form `17.32 * sqrt(d * s * (1 - s) / f)`. -/
theorem fresnelRadiusM_eq {d f s : ℝ} (hd : 0 < d) (hf : 0 < f) (hs0 : 0 < s)
    (hs1 : s < 1) :
    fresnelRadiusM d f s = 17.32 * Real.sqrt (d * (s * (1 - s)) / f) := by
  have h1s : (0:ℝ) < 1 - s := by linarith
  have hg1 : ¬(d ≤ 0 ∨ f ≤ 0) := by push_neg; exact ⟨hd, hf⟩
  have hg2 : ¬(d * s / 1000 ≤ 0 ∨ d * (1 - s) / 1000 ≤ 0 ∨ d / 1000 ≤ 0 ∨
      f / 1000 ≤ 0) := by
    push_neg
    refine ⟨?_, ?_, ?_, ?_⟩
    · exact div_pos (mul_pos hd hs0) (by norm_num)
    · exact div_pos (mul_pos hd h1s) (by norm_num)
    · exact div_pos hd (by norm_num)
    · exact div_pos hf (by norm_num)
  rw [fresnelRadiusM, if_neg hg1]
  simp only
  rw [if_neg hg2]
  congr 1
  congr 1
  field_simp
  ring

/-- Claim C5: the first-Fresnel-zone radius is 0 on non-positive distance or
frequency, and on positive inputs (interior split ratio held fixed) it is
strictly positive, scales as `sqrt(distance)`, and scales as
`1/sqrt(frequency)`. -/
theorem claim_c5_fresnel_radius (d f s c : ℝ) :
    ((d ≤ 0 ∨ f ≤ 0) → fresnelRadiusM d f s = 0) ∧
    (0 < d → 0 < f → 0 < s → s < 1 → 0 < fresnelRadiusM d f s) ∧
    (0 < d → 0 < f → 0 < s → s < 1 → 0 < c →
      fresnelRadiusM (c * d) f s = Real.sqrt c * fresnelRadiusM d f s) ∧
    (0 < d → 0 < f → 0 < s → s < 1 → 0 < c →
      fresnelRadiusM d (c * f) s = fresnelRadiusM d f s / Real.sqrt c) := by
  refine ⟨?_, ?_, ?_, ?_⟩
  · intro h
    rw [fresnelRadiusM, if_pos h]
  · intro hd hf hs0 hs1
    rw [fresnelRadiusM_eq hd hf hs0 hs1]
    have hin : 0 < d * (s * (1 - s)) / f :=
      div_pos (mul_pos hd (mul_pos hs0 (by linarith))) hf
    exact mul_pos (by norm_num) (Real.sqrt_pos.mpr hin)
  · intro hd hf hs0 hs1 hc
    rw [fresnelRadiusM_eq (mul_pos hc hd) hf hs0 hs1,
      fresnelRadiusM_eq hd hf hs0 hs1]
    have harg : c * d * (s * (1 - s)) / f = c * (d * (s * (1 - s)) / f) := by ring
    rw [harg, Real.sqrt_mul hc.le]
    ring
  · intro hd hf hs0 hs1 hc
    rw [fresnelRadiusM_eq hd (mul_pos hc hf) hs0 hs1,
      fresnelRadiusM_eq hd hf hs0 hs1]
    have harg : d * (s * (1 - s)) / (c * f) = d * (s * (1 - s)) / f / c := by
      rw [div_div]
      ring_nf
    have hnum : (0:ℝ) ≤ d * (s * (1 - s)) / f :=
      le_of_lt (div_pos (mul_pos hd (mul_pos hs0 (by linarith))) hf)
    rw [harg, Real.sqrt_div hnum]
    ring

/-- Claim C5 witness: instantiated at the degenerate input `d = -1` (radius
0) and at `d = 10000 m`, `f = 868 MHz`, `s = 1/2`, `c = 4`. -/
theorem claim_c5_witness :
    ((-1:ℝ) ≤ 0 ∨ (868:ℝ) ≤ 0) ∧ fresnelRadiusM (-1) 868 (1/2) = 0 ∧
    ((0:ℝ) < 10000 ∧ (0:ℝ) < 868 ∧ (0:ℝ) < 1/2 ∧ (1:ℝ)/2 < 1 ∧ (0:ℝ) < 4) ∧
    0 < fresnelRadiusM 10000 868 (1/2) ∧
    fresnelRadiusM (4 * 10000) 868 (1/2) =
      Real.sqrt 4 * fresnelRadiusM 10000 868 (1/2) ∧
    fresnelRadiusM 10000 (4 * 868) (1/2) =
      fresnelRadiusM 10000 868 (1/2) / Real.sqrt 4 := by
  refine ⟨Or.inl (by norm_num), ?_, ⟨by norm_num, by norm_num, by norm_num, by norm_num,
    by norm_num⟩, ?_, ?_, ?_⟩
  · exact (claim_c5_fresnel_radius (-1) 868 (1/2) 4).1 (Or.inl (by norm_num))
  · exact (claim_c5_fresnel_radius 10000 868 (1/2) 4).2.1 (by norm_num) (by norm_num)
      (by norm_num) (by norm_num)
  · exact (claim_c5_fresnel_radius 10000 868 (1/2) 4).2.2.1 (by norm_num) (by norm_num)
      (by norm_num) (by norm_num) (by norm_num)
  · exact (claim_c5_fresnel_radius 10000 868 (1/2) 4).2.2.2 (by norm_num) (by norm_num)
      (by norm_num) (by norm_num) (by norm_num)

/-! ### Claim C4: height band and monotonicity -/

theorem pixelSizeM_pos (dem : Dem) : 0 < pixelSizeM dem :=
  lt_of_lt_of_le (by norm_num) (le_max_right _ _)

theorem pxRadiusOf_mono (dem : Dem) {lr lr' : ℝ} (h : lr ≤ lr') :
    pxRadiusOf dem lr ≤ pxRadiusOf dem lr' := by
  unfold pxRadiusOf
  exact max_le_max
    (Int.ceil_mono ((div_le_div_iff_of_pos_right (pixelSizeM_pos dem)).mpr h)) le_rfl

theorem localWindow_subset (dem : Dem) (row col : ℤ) {px px' : ℤ} (h : px ≤ px') :
    localWindow dem row col px ⊆ localWindow dem row col px' := by
  unfold localWindow
  apply Finset.product_subset_product <;> apply Finset.Icc_subset_Icc <;> omega

theorem estimateMinHeight_mono_radius (dem : Dem) (ox oy g cm : ℝ) {lr lr' : ℝ}
    (h : lr ≤ lr') :
    estimateMinHeightFromLocalTerrain dem ox oy g lr cm ≤
      estimateMinHeightFromLocalTerrain dem ox oy g lr' cm := by
  simp only [estimateMinHeightFromLocalTerrain]
  have hsub := localWindow_subset dem (dem.rowcolAt (ox, oy)).1 (dem.rowcolAt (ox, oy)).2
    (pxRadiusOf_mono dem h)
  by_cases hw : (localWindow dem (dem.rowcolAt (ox, oy)).1 (dem.rowcolAt (ox, oy)).2
      (pxRadiusOf dem lr)).Nonempty
  · rw [dif_pos hw, dif_pos (hw.mono hsub)]
    refine max_le_max le_rfl ?_
    have hsup := Finset.sup'_mono (fun p : ℤ × ℤ => dem.elev p.1 p.2) hsub hw
    linarith
  · rw [dif_neg hw]
    split
    · exact le_max_left _ _
    · exact le_rfl

theorem estimateMinHeight_mono_clearance (dem : Dem) (ox oy g lr : ℝ) {cm cm' : ℝ}
    (h : cm ≤ cm') :
    estimateMinHeightFromLocalTerrain dem ox oy g lr cm ≤
      estimateMinHeightFromLocalTerrain dem ox oy g lr cm' := by
  simp only [estimateMinHeightFromLocalTerrain]
  split
  · exact max_le_max le_rfl (by linarith)
  · exact le_rfl

/-- Used-height combinator of lines 217-219 is monotone in the terrain floor
and the Fresnel margin. -/
theorem usedCombine_mono {raw minH maxH m m' fm fm' : ℝ} (hm : m ≤ m')
    (hf : fm ≤ fm') :
    min (max (max (max raw minH) m) (m + fm)) maxH ≤
      min (max (max (max raw minH) m') (m' + fm')) maxH :=
  min_le_min (max_le_max (max_le_max le_rfl hm) (add_le_add hm hf)) le_rfl

/-- Claim C4 (amended): provided `min_height_global ≤ max_height_global`,
the used height lies in the configured band; and (unconditionally) the used
height is monotonically non-decreasing in `local_radius_m`,
`clearance_margin_m` and `fresnel_clearance_ratio`, all other inputs held
fixed. Configuration fields, in constructor order: mode, min height, max
height, local radius, clearance margin, Fresnel flag, clearance ratio,
sample ratio, frequency, max distance. -/
theorem claim_c4_band_and_monotone (dem : Dem) (nd : InputNode) (mode : String)
    (uf : Bool) (minH maxH lr lr' cm cm' fr fr' sr fq md : ℝ) :
    (minH ≤ maxH →
      minH ≤ (resolveNode ⟨mode, minH, maxH, lr, cm, uf, fr, sr, fq, md⟩ dem nd).usedHeightM ∧
      (resolveNode ⟨mode, minH, maxH, lr, cm, uf, fr, sr, fq, md⟩ dem nd).usedHeightM ≤ maxH) ∧
    (lr ≤ lr' →
      (resolveNode ⟨mode, minH, maxH, lr, cm, uf, fr, sr, fq, md⟩ dem nd).usedHeightM ≤
        (resolveNode ⟨mode, minH, maxH, lr', cm, uf, fr, sr, fq, md⟩ dem nd).usedHeightM) ∧
    (cm ≤ cm' →
      (resolveNode ⟨mode, minH, maxH, lr, cm, uf, fr, sr, fq, md⟩ dem nd).usedHeightM ≤
        (resolveNode ⟨mode, minH, maxH, lr, cm', uf, fr, sr, fq, md⟩ dem nd).usedHeightM) ∧
    (fr ≤ fr' →
      (resolveNode ⟨mode, minH, maxH, lr, cm, uf, fr, sr, fq, md⟩ dem nd).usedHeightM ≤
        (resolveNode ⟨mode, minH, maxH, lr, cm, uf, fr', sr, fq, md⟩ dem nd).usedHeightM) := by
  refine ⟨?_, ?_, ?_, ?_⟩
  · intro hband
    simp only [resolveNode]
    constructor
    · exact le_min (le_max_of_le_left (le_max_of_le_left (le_max_right _ _))) hband
    · exact min_le_right _ _
  · intro h
    simp only [resolveNode]
    refine usedCombine_mono ?_ le_rfl
    split
    · exact estimateMinHeight_mono_radius dem _ _ _ _ h
    · exact le_rfl
  · intro h
    simp only [resolveNode]
    refine usedCombine_mono ?_ le_rfl
    split
    · exact estimateMinHeight_mono_clearance dem _ _ _ _ h
    · exact le_rfl
  · intro h
    simp only [resolveNode]
    refine usedCombine_mono le_rfl ?_
    simp only [fresnelMarginOf]
    split
    · exact max_le_max le_rfl
        (mul_le_mul_of_nonneg_left h (fresnelRadiusM_nonneg _ _ _))
    · exact le_rfl

/-- The degenerate configuration with `min_height_m = 4 > max_height_m = 3`. -/
noncomputable def hcC4 : HeightCfg :=
  ⟨"adaptive_min", 4, 3, 300, 2, false, 0.6, 0.5, 868, 20000⟩

/-- A node with input height 5. -/
noncomputable def ndC4 : InputNode := ⟨"X", 50, 14, 5⟩

/-- Claim C4 counterexample: with `min_height_m = 4 > max_height_m = 3` and
input height 5, the used height is 3 and falls below `min_height_global`,
so the band containment of the claim fails for this configuration. -/
theorem claim_c4_counterexample :
    ¬ (hcC4.minHeightM ≤ (resolveNode hcC4 demEmpty ndC4).usedHeightM ∧
        (resolveNode hcC4 demEmpty ndC4).usedHeightM ≤ hcC4.maxHeightM) := by
  have hnb : ¬ cellInBounds demEmpty (demEmpty.rowcolAt (demEmpty.projXY (ndC4.lon, ndC4.lat))) := by
    simp [cellInBounds, demEmpty]
  simp only [resolveNode, hcC4, demEmpty, ndC4, fresnelMarginOf]
  norm_num [cellInBounds]

/-- Claim C4 witness: the amended theorem instantiated at a concrete
configuration (band 4..120) and concrete knob pairs 1 ≤ 2. -/
theorem claim_c4_witness :
    ((4:ℝ) ≤ 120 ∧
      ((4:ℝ) ≤ (resolveNode ⟨"adaptive_min", 4, 120, 1, 1, true, 1, 1/2, 868, 20000⟩
          demEmpty ndC4).usedHeightM ∧
        (resolveNode ⟨"adaptive_min", 4, 120, 1, 1, true, 1, 1/2, 868, 20000⟩
          demEmpty ndC4).usedHeightM ≤ 120)) ∧
    ((1:ℝ) ≤ 2 ∧
      (resolveNode ⟨"adaptive_min", 4, 120, 1, 1, true, 1, 1/2, 868, 20000⟩
          demEmpty ndC4).usedHeightM ≤
        (resolveNode ⟨"adaptive_min", 4, 120, 2, 1, true, 1, 1/2, 868, 20000⟩
          demEmpty ndC4).usedHeightM) ∧
    ((1:ℝ) ≤ 2 ∧
      (resolveNode ⟨"adaptive_min", 4, 120, 1, 1, true, 1, 1/2, 868, 20000⟩
          demEmpty ndC4).usedHeightM ≤
        (resolveNode ⟨"adaptive_min", 4, 120, 1, 2, true, 1, 1/2, 868, 20000⟩
          demEmpty ndC4).usedHeightM) ∧
    ((1:ℝ) ≤ 2 ∧
      (resolveNode ⟨"adaptive_min", 4, 120, 1, 1, true, 1, 1/2, 868, 20000⟩
          demEmpty ndC4).usedHeightM ≤
        (resolveNode ⟨"adaptive_min", 4, 120, 1, 1, true, 2, 1/2, 868, 20000⟩
          demEmpty ndC4).usedHeightM) := by
  have H := claim_c4_band_and_monotone demEmpty ndC4 "adaptive_min" true
    4 120 1 2 1 2 1 2 (1/2) 868 20000
  exact ⟨⟨by norm_num, H.1 (by norm_num)⟩, ⟨by norm_num, H.2.1 (by norm_num)⟩,
    ⟨by norm_num, H.2.2.1 (by norm_num)⟩, ⟨by norm_num, H.2.2.2 (by norm_num)⟩⟩

/-! ## Coverage Aggregation (`merge.py`, `merge_binary_rasters`, lines 11-47) -/

/-- The canonical target grid (taken from the template raster, line 16-22). -/
structure Grid where
  rowsN : ℕ
  colsN : ℕ
deriving DecidableEq, Repr

/-- One per-node visibility raster, viewed through the deterministic
binarize-and-reproject step of lines 27-39: `projVisible i j` tells whether
the nearest-neighbour reprojection of `(src_arr > 0)` marks canonical cell
`(i, j)` visible (cells outside the source extent read nodata = 0). The
reprojection of one raster does not depend on the other rasters or on the
iteration order. -/
structure VRaster where
  projVisible : ℕ → ℕ → Bool

/-- The output of the merge: the canonical grid, the accumulator cells, and
the `max_count` / `sum` summary statistics of line 47. -/
structure CoverageRaster where
  grid : Grid
  cell : ℕ → ℕ → ℕ
  maxCount : ℕ
  sumCount : ℕ

/-- The accumulator is `np.uint32`: every `+=` wraps modulo `2^32`. -/
def u32Mod : ℕ := 2 ^ 32

/-- Line 40 iterated over line 24: starting from the zero grid, add each
raster's reprojected 0/1 indicator into the accumulator cell, in list
order, with uint32 wrap-around. -/
def accCell (rs : List VRaster) (i j : ℕ) : ℕ :=
  rs.foldl (fun a r => (a + (if r.projVisible i j then 1 else 0)) % u32Mod) 0

/-- Lines 11-47, `merge_binary_rasters` with an explicit template grid (the
orchestrator always passes the terrain raster as template, line 369-373):
the count raster on the template grid plus its summary statistics. -/
def mergeBinaryRasters (rs : List VRaster) (g : Grid) : CoverageRaster :=
  { grid := g
    cell := fun i j => accCell rs i j
    maxCount := (Finset.range g.rowsN ×ˢ Finset.range g.colsN).sup
      (fun p => accCell rs p.1 p.2)
    sumCount := ∑ p ∈ Finset.range g.rowsN ×ˢ Finset.range g.colsN, accCell rs p.1 p.2 }

theorem accCell_foldl_eq (i j : ℕ) (rs : List VRaster) (a : ℕ) :
    rs.foldl (fun a r => (a + (if r.projVisible i j then 1 else 0)) % u32Mod) (a % u32Mod) =
      (a + (rs.map (fun r => if r.projVisible i j then 1 else 0)).sum) % u32Mod := by
  induction rs generalizing a with
  | nil => simp
  | cons r t ih =>
    simp only [List.foldl_cons, List.map_cons, List.sum_cons]
    rw [Nat.mod_add_mod, ih]
    congr 1
    omega

theorem accCell_eq_sum_mod (rs : List VRaster) (i j : ℕ) :
    accCell rs i j = (rs.map (fun r => if r.projVisible i j then 1 else 0)).sum % u32Mod := by
  have h := accCell_foldl_eq i j rs 0
  simpa [accCell] using h

/-- Claim C7: coverage aggregation is order-independent — permuting the
input raster list yields a bit-identical CoverageRaster (same grid, same
cell values, same summary statistics). -/
theorem claim_c7_merge_perm_invariant (rs rs' : List VRaster) (g : Grid)
    (h : rs.Perm rs') :
    mergeBinaryRasters rs g = mergeBinaryRasters rs' g := by
  have hcell : ∀ i j, accCell rs i j = accCell rs' i j := by
    intro i j
    rw [accCell_eq_sum_mod, accCell_eq_sum_mod]
    exact congrArg (fun n => n % u32Mod)
      (List.Perm.sum_eq (h.map (fun r => if r.projVisible i j then 1 else 0)))
  have hfun : (fun i j => accCell rs i j) = fun i j => accCell rs' i j :=
    funext fun i => funext fun j => hcell i j
  simp only [mergeBinaryRasters, CoverageRaster.mk.injEq, hfun, true_and]

/-- A raster visible exactly at cell (0, 0). -/
def rasterA : VRaster := ⟨fun i j => i == 0 && j == 0⟩

/-- A raster visible on the whole first row. -/
def rasterB : VRaster := ⟨fun i _ => i == 0⟩

/-- Claim C7 witness: swapping two concrete rasters produces the same
CoverageRaster on a 2x2 grid. -/
theorem claim_c7_witness :
    ([rasterA, rasterB].Perm [rasterB, rasterA]) ∧
    mergeBinaryRasters [rasterA, rasterB] ⟨2, 2⟩ =
      mergeBinaryRasters [rasterB, rasterA] ⟨2, 2⟩ :=
  ⟨List.Perm.swap rasterB rasterA [],
    claim_c7_merge_perm_invariant _ _ ⟨2, 2⟩ (List.Perm.swap rasterB rasterA [])⟩

/-! ## Viewshed Orchestration (`viewshed.py`, `_compute_one` lines 296-342 and
`compute_coverage` lines 345-384) -/

/-- Infrastructure state of a run: whether `shutil.which("gdal_viewshed")`
finds the executable, and whether `rasterio.open` on the terrain path (done
inside `_load_nodes`, before any job runs) succeeds. -/
structure OrchEnv where
  exeAvailable : Bool
  demOpens : Bool
deriving DecidableEq, Repr

/-- Observable events of the orchestration: a per-node job being started,
and the external visibility primitive actually being invoked. -/
inductive OrchEvent where
  | dispatched (nodeId : String)
  | primitiveInvoked (nodeId : String)
deriving DecidableEq, Repr

/-- A per-node visibility request: identifier, geographic position, and the
resolved observer height passed as `-oz`. -/
structure Job where
  nodeId : String
  lon : ℝ
  lat : ℝ
  usedHeightM : ℝ

/-- Lines 306-307: `row < 0 or col < 0 or row >= src.height or col >= src.width`. -/
def outOfBoundsJob (dem : Dem) (j : Job) : Bool :=
  let rc := dem.rowcolAt (dem.projXY (j.lon, j.lat))
  decide (rc.1 < 0) || decide (rc.2 < 0) ||
    decide ((dem.heightPx : ℤ) ≤ rc.1) || decide ((dem.widthPx : ℤ) ≤ rc.2)

/-- Line 300: the per-node output path `viewshed_{node_id}.tif`. -/
def viewshedPath (nodeId : String) : String := "viewshed_" ++ nodeId ++ ".tif"

/-- Lines 296-342, `_compute_one`: out-of-bounds observers return the empty
sentinel path; then the executable is looked up (raising when missing);
only then is the external primitive invoked. Returns the events produced
inside the job together with its result. -/
def computeOneRun (env : OrchEnv) (dem : Dem) (j : Job) :
    List OrchEvent × Except String String :=
  if outOfBoundsJob dem j then ([], Except.ok "")
  else if !env.exeAvailable then ([], Except.error "gdal_viewshed not found in PATH")
  else ([OrchEvent.primitiveInvoked j.nodeId], Except.ok (viewshedPath j.nodeId))

/-- Lines 362-363 (sequential branch): run the jobs in node order, recording
a dispatch event as each job starts, stopping at the first raised error. -/
def runJobs (env : OrchEnv) (dem : Dem) : List Job → List OrchEvent × Except String (List String)
  | [] => ([], Except.ok [])
  | j :: rest =>
    let one := computeOneRun env dem j
    match one.2 with
    | Except.error e => (OrchEvent.dispatched j.nodeId :: one.1, Except.error e)
    | Except.ok r =>
      let rr := runJobs env dem rest
      (OrchEvent.dispatched j.nodeId :: one.1 ++ rr.1,
        match rr.2 with
        | Except.error e => Except.error e
        | Except.ok l => Except.ok (r :: l))

/-- The run summary of lines 376-384 (the parts the orchestration claims
are about). -/
structure CoverageRunResult where
  nodesCount : ℕ
  skippedOutsideDem : ℕ
  rasters : List String
deriving DecidableEq, Repr

/-- Lines 345-384, `compute_coverage`: open the terrain raster (during node
loading, before any job), fail on an empty node list, run the per-node
jobs, drop the empty sentinel outputs, fail when no raster remains, and
report `nodes_skipped_outside_dem = len(nodes) - len(rasters)`. -/
def computeCoverage (env : OrchEnv) (dem : Dem) (jobs : List Job) :
    List OrchEvent × Except String CoverageRunResult :=
  if !env.demOpens then ([], Except.error "rasterio.open failed on the DEM path")
  else if jobs.isEmpty then ([], Except.error "No nodes found in CSV")
  else
    let run := runJobs env dem jobs
    match run.2 with
    | Except.error e => (run.1, Except.error e)
    | Except.ok outs =>
      let rasters := outs.filter (fun r => !(r == ""))
      if rasters.isEmpty then
        (run.1, Except.error
          "No viewshed rasters generated. Check AOI/DEM coverage vs node coordinates.")
      else
        (run.1, Except.ok ⟨jobs.length, jobs.length - rasters.length, rasters⟩)

/-! ### Helper lemmas for the orchestration claims -/

theorem runJobs_ok_of_exe (env : OrchEnv) (dem : Dem) (hexe : env.exeAvailable = true) :
    ∀ jobs : List Job,
      (runJobs env dem jobs).2 = Except.ok
        (jobs.map (fun j => if outOfBoundsJob dem j then "" else viewshedPath j.nodeId)) := by
  intro jobs
  induction jobs with
  | nil => rfl
  | cons j rest ih =>
    by_cases hb : outOfBoundsJob dem j
    · simp [runJobs, computeOneRun, hb, ih]
    · simp [runJobs, computeOneRun, hb, hexe, ih]

theorem runJobs_no_primitive (env : OrchEnv) (dem : Dem)
    (hexe : env.exeAvailable = false) (s : String) :
    ∀ jobs : List Job, OrchEvent.primitiveInvoked s ∉ (runJobs env dem jobs).1 := by
  intro jobs
  induction jobs with
  | nil => simp [runJobs]
  | cons j rest ih =>
    by_cases hb : outOfBoundsJob dem j
    · simp [runJobs, computeOneRun, hb, ih]
    · simp [runJobs, computeOneRun, hb, hexe]

theorem viewshedPath_beq_empty (s : String) : (viewshedPath s == "") = false := by
  refine beq_eq_false_iff_ne.mpr (fun h => ?_)
  have hlen := congrArg String.length h
  simp [viewshedPath, String.length_append] at hlen
  exact absurd hlen.2 (by decide)

theorem filter_jobOutputs (dem : Dem) :
    ∀ jobs : List Job,
      ((jobs.map (fun j => if outOfBoundsJob dem j then "" else viewshedPath j.nodeId)).filter
          (fun r => !(r == ""))) =
        (jobs.filter (fun j => !outOfBoundsJob dem j)).map (fun j => viewshedPath j.nodeId) := by
  intro jobs
  induction jobs with
  | nil => rfl
  | cons j rest ih =>
    by_cases hb : outOfBoundsJob dem j
    · simp [hb, ih]
    · simp [hb, ih, viewshedPath_beq_empty]

/-! ### Claims C8 and C9 -/

/-- A 1x1 raster whose single cell holds every projected position. -/
noncomputable def demIn : Dem :=
  { heightPx := 1, widthPx := 1, transformA := 1, transformE := 1,
    elev := fun _ _ => 0, rowcolAt := fun _ => (0, 0), projXY := fun p => p }

/-- A raster with no cells at all: every observer is out of bounds. -/
noncomputable def demOut : Dem :=
  { heightPx := 0, widthPx := 0, transformA := 1, transformE := 1,
    elev := fun _ _ => 0, rowcolAt := fun _ => (0, 0), projXY := fun p => p }

/-- Healthy infrastructure: executable found, terrain opens. -/
def envOk : OrchEnv := ⟨true, true⟩

/-- Missing executable, terrain opens. -/
def envNoExe : OrchEnv := ⟨false, true⟩

/-- A concrete visibility request. -/
noncomputable def jobIn : Job := ⟨"N1", 14, 50, 6⟩

/-- Claim C8 counterexample: with the `gdal_viewshed` executable missing but
the terrain fine, the single in-bounds job IS dispatched (the trace contains
its dispatch event) and only then does the run fail with the
missing-executable error — the check lives inside `_compute_one`, after
dispatch, contradicting "detected before any visibility request is
dispatched to the worker pool". -/
theorem claim_c8_counterexample :
    (computeCoverage envNoExe demIn [jobIn]).1 = [OrchEvent.dispatched "N1"] ∧
    (computeCoverage envNoExe demIn [jobIn]).2 =
      Except.error "gdal_viewshed not found in PATH" :=
  ⟨rfl, rfl⟩

/-- Claim C8 (amended): an unreadable terrain file is detected during node
loading, before any job is dispatched (empty event trace, immediate error);
a missing visibility executable is detected inside each per-node job after
dispatch but before invoking the external primitive, so the primitive is
never invoked with invalid infrastructure even though jobs do start. -/
theorem claim_c8_infrastructure_guards (env : OrchEnv) (dem : Dem) (jobs : List Job) :
    (env.demOpens = false →
      (computeCoverage env dem jobs).1 = [] ∧
      ∃ e, (computeCoverage env dem jobs).2 = Except.error e) ∧
    (env.exeAvailable = false →
      ∀ s, OrchEvent.primitiveInvoked s ∉ (computeCoverage env dem jobs).1) := by
  constructor
  · intro h
    simp [computeCoverage, h]
  · intro h s
    have hrun := runJobs_no_primitive env dem h s jobs
    unfold computeCoverage
    split
    · simp
    · split
      · simp
      · cases hr : (runJobs env dem jobs).2 with
        | error e => simpa [hr] using hrun
        | ok outs =>
          simp only [hr]
          split
          · simpa using hrun
          · simpa using hrun

/-- Claim C8 witness: both guards instantiated on a closed run with broken
infrastructure (terrain unreadable, executable missing). -/
theorem claim_c8_witness :
    ((⟨false, false⟩ : OrchEnv).demOpens = false ∧
      ((computeCoverage ⟨false, false⟩ demIn [jobIn]).1 = [] ∧
        ∃ e, (computeCoverage ⟨false, false⟩ demIn [jobIn]).2 = Except.error e)) ∧
    ((⟨false, false⟩ : OrchEnv).exeAvailable = false ∧
      OrchEvent.primitiveInvoked "N1" ∉ (computeCoverage ⟨false, false⟩ demIn [jobIn]).1) :=
  ⟨⟨rfl, (claim_c8_infrastructure_guards ⟨false, false⟩ demIn [jobIn]).1 rfl⟩,
    ⟨rfl, (claim_c8_infrastructure_guards ⟨false, false⟩ demIn [jobIn]).2 rfl "N1"⟩⟩

/-- Claim C9 counterexample: a run whose only observer is outside the
terrain extent does not merely skip it — the whole run raises the
"No viewshed rasters generated" error, so an out-of-extent observer is not
always error-free. -/
theorem claim_c9_counterexample :
    outOfBoundsJob demOut jobIn = true ∧
    (computeCoverage envOk demOut [jobIn]).2 =
      Except.error
        "No viewshed rasters generated. Check AOI/DEM coverage vs node coordinates." :=
  ⟨rfl, rfl⟩

/-- Claim C9 (amended): provided the infrastructure is healthy and at least
one observer is inside the terrain extent, the run succeeds, the produced
raster list consists exactly of the in-bounds observers' rasters in node
order (out-of-extent observers produce none), and the reported skip count
equals the number of out-of-extent observers (total nodes minus produced
rasters). -/
theorem claim_c9_skip_accounting (env : OrchEnv) (dem : Dem) (jobs : List Job)
    (hdem : env.demOpens = true) (hexe : env.exeAvailable = true)
    (hin : ∃ j ∈ jobs, outOfBoundsJob dem j = false) :
    ∃ res, (computeCoverage env dem jobs).2 = Except.ok res ∧
      res.rasters = (jobs.filter (fun j => !outOfBoundsJob dem j)).map
        (fun j => viewshedPath j.nodeId) ∧
      res.skippedOutsideDem = jobs.countP (fun j => outOfBoundsJob dem j) ∧
      res.nodesCount = jobs.length := by
  obtain ⟨j0, hj0, hj0b⟩ := hin
  have hne : jobs.isEmpty = false := by
    cases jobs with
    | nil => cases hj0
    | cons a t => rfl
  have hcnt := length_filter_not_add_countP (fun j => outOfBoundsJob dem j) jobs
  have hrasters := filter_jobOutputs dem jobs
  have hmem : viewshedPath j0.nodeId ∈
      (jobs.filter (fun j => !outOfBoundsJob dem j)).map (fun j => viewshedPath j.nodeId) :=
    List.mem_map_of_mem _ (List.mem_filter.mpr ⟨hj0, by simp [hj0b]⟩)
  have hfne : ((jobs.map (fun j => if outOfBoundsJob dem j then ""
      else viewshedPath j.nodeId)).filter (fun r => !(r == ""))).isEmpty = false := by
    rw [hrasters]
    cases hc : (jobs.filter (fun j => !outOfBoundsJob dem j)).map
        (fun j => viewshedPath j.nodeId) with
    | nil => rw [hc] at hmem; cases hmem
    | cons a t => rfl
  unfold computeCoverage
  rw [hdem]
  simp only [Bool.not_true, Bool.false_eq_true, if_false, hne]
  rw [runJobs_ok_of_exe env dem hexe jobs]
  simp only [hfne, Bool.false_eq_true, if_false]
  refine ⟨_, rfl, ?_, ?_, rfl⟩
  · exact hrasters
  · simp only [hrasters, List.length_map]
    omega

/-- Claim C9 witness: the skip-accounting theorem instantiated on a healthy
run with one in-bounds observer. -/
theorem claim_c9_witness :
    envOk.demOpens = true ∧ envOk.exeAvailable = true ∧
    (∃ j ∈ [jobIn], outOfBoundsJob demIn j = false) ∧
    ∃ res, (computeCoverage envOk demIn [jobIn]).2 = Except.ok res ∧
      res.rasters = ([jobIn].filter (fun j => !outOfBoundsJob demIn j)).map
        (fun j => viewshedPath j.nodeId) ∧
      res.skippedOutsideDem = [jobIn].countP (fun j => outOfBoundsJob demIn j) ∧
      res.nodesCount = [jobIn].length :=
  ⟨rfl, rfl, ⟨jobIn, by simp, rfl⟩,
    claim_c9_skip_accounting envOk demIn [jobIn] rfl rfl ⟨jobIn, by simp, rfl⟩⟩

end MapaPokryti
